import Mathlib

/-
Verification development for the SQLite-TUI repository.

The Rust sources `src/db.rs` (store protocol, worker, undo history, query
building) and `src/app.rs` (row-window engine) are shallowly embedded below.
Machine integers (`usize`) become `Nat` (all arithmetic in the embedded code
paths uses saturating operations, which coincide with `Nat` arithmetic);
`i64` rowids become `Int`; fallible store calls become `Except String`.

The persistent store itself (SQLite) is outside the repository; its boundary
behaviour (executing a point UPDATE, reading a cell, the semantics of the
generated `LOWER(CAST(c AS TEXT)) LIKE ?` predicate) is modelled from the
spec, as marked on the individual definitions.
-/

namespace SQLiteTUI

/-- Sort direction, from `src/db.rs` (`enum SortDir`). -/
inductive SortDir
  | Asc
  | Desc
deriving DecidableEq, Repr

/-- An SQLite value as seen through the worker's boundary.  The `Real`
payload is kept as the value's decimal text rendering (Rust's `{}` display):
floating-point bit-level semantics is out of scope and no claim depends on
the payload, only on the storage class. Blob payloads are byte lists. -/
inductive SQLValue
  | Null
  | Integer (i : Int)
  | Real (r : String)
  | Text (t : String)
  | Blob (b : List Nat)
deriving DecidableEq, Repr

/-- Hex digit characters, from the inline `hex` module in `src/db.rs`. -/
def hexChar (n : Nat) : Char :=
  (("0123456789abcdef".data)[n]?).getD '0'

/-- `hex::encode` from `src/db.rs`: two hex digits per byte
(`b >> 4` and `b & 0xf`, i.e. `b / 16` and `b % 16` for bytes). -/
def hexEncode (data : List Nat) : String :=
  String.mk (data.flatMap (fun b => [hexChar (b / 16 % 16), hexChar (b % 16)]))

/-- `value_to_string` from `src/db.rs`: the UI-facing text of a value. -/
def value_to_string : SQLValue → String
  | .Null => "NULL"
  | .Integer i => toString i
  | .Real r => r
  | .Text t => t
  | .Blob b => "0x" ++ hexEncode b

/-- `value_to_opt_string` from `src/db.rs`: like `value_to_string` but SQL
NULL becomes `none` (used when capturing the previous value for history). -/
def value_to_opt_string : SQLValue → Option String
  | .Null => none
  | .Integer i => some (toString i)
  | .Real r => some r
  | .Text t => some t
  | .Blob b => some ("0x" ++ hexEncode b)

/-- Accumulate decimal digits; `none` on the first non-digit character. -/
def parseDigitsAux : List Char → Nat → Option Nat
  | [], acc => some acc
  | c :: cs, acc =>
    if '0' ≤ c ∧ c ≤ '9' then parseDigitsAux cs (acc * 10 + (c.toNat - '0'.toNat))
    else none

/-- A non-empty all-digit run parsed as a `Nat`, else `none`. -/
def parseDigits : List Char → Option Nat
  | [] => none
  | cs => parseDigitsAux cs 0

/-- Modelled from the spec: the acceptance behaviour of Rust's
`str::parse::<i64>()` (standard-library code, not part of this repository),
as invoked by `parse_value` in `src/db.rs`: an optional `+`/`-` sign, then
one or more ASCII digits, and the value must fit in a signed 64-bit
integer. -/
def rustParseI64 (s : String) : Option Int :=
  let (neg, rest) :=
    match s.data with
    | '+' :: r => (false, r)
    | '-' :: r => (true, r)
    | r => (false, r)
  match parseDigits rest with
  | none => none
  | some n =>
    if neg then (if n ≤ 2 ^ 63 then some (-(n : Int)) else none)
    else (if n ≤ 2 ^ 63 - 1 then some (n : Int) else none)

/-- Is `c` an ASCII digit. -/
def isDigit (c : Char) : Bool := '0' ≤ c ∧ c ≤ '9'

/-- Exponent part of Rust's float grammar: empty, or `e`/`E`, an optional
sign, and one or more digits. -/
def expOk : List Char → Bool
  | [] => true
  | 'e' :: r =>
    (match r with
     | '+' :: x => ¬x.isEmpty ∧ x.all isDigit
     | '-' :: x => ¬x.isEmpty ∧ x.all isDigit
     | x => ¬x.isEmpty ∧ x.all isDigit)
  | 'E' :: r =>
    (match r with
     | '+' :: x => ¬x.isEmpty ∧ x.all isDigit
     | '-' :: x => ¬x.isEmpty ∧ x.all isDigit
     | x => ¬x.isEmpty ∧ x.all isDigit)
  | _ => false

/-- Mantissa-plus-exponent part of Rust's float grammar:
`Digit+ | Digit+ '.' Digit* | Digit* '.' Digit+`, then an optional
exponent. -/
def decimalOk (cs : List Char) : Bool :=
  let (intPart, rest) := List.span isDigit cs
  match rest with
  | '.' :: rest2 =>
    let (fracPart, rest3) := List.span isDigit rest2
    (¬intPart.isEmpty ∨ ¬fracPart.isEmpty) ∧ expOk rest3
  | _ => ¬intPart.isEmpty ∧ expOk rest

/-- ASCII lower-casing of one character (table form, so that case analysis
needs no character arithmetic).  Models both Rust's `to_lowercase` and SQL
`LOWER`, which agree on ASCII; non-ASCII case folding is out of scope. -/
def lowerChar (c : Char) : Char :=
  match c with
  | 'A' => 'a' | 'B' => 'b' | 'C' => 'c' | 'D' => 'd' | 'E' => 'e'
  | 'F' => 'f' | 'G' => 'g' | 'H' => 'h' | 'I' => 'i' | 'J' => 'j'
  | 'K' => 'k' | 'L' => 'l' | 'M' => 'm' | 'N' => 'n' | 'O' => 'o'
  | 'P' => 'p' | 'Q' => 'q' | 'R' => 'r' | 'S' => 's' | 'T' => 't'
  | 'U' => 'u' | 'V' => 'v' | 'W' => 'w' | 'X' => 'x' | 'Y' => 'y'
  | 'Z' => 'z'
  | c => c

/-- ASCII lower-casing of a string. -/
def asciiLower (s : String) : String := String.mk (s.data.map lowerChar)

/-- Modelled from the spec: the acceptance grammar of Rust's
`str::parse::<f64>()` (standard-library code, not part of this repository):
an optional sign, then `inf`, `infinity` or `nan` case-insensitively, or a
decimal number with optional fraction and exponent.  Overflow does not
reject (it produces an infinity), so acceptance is purely grammatical. -/
def rustParseF64ok (s : String) : Bool :=
  let cs :=
    match s.data with
    | '+' :: r => r
    | '-' :: r => r
    | r => r
  let lowered := cs.map lowerChar
  if lowered = "inf".data ∨ lowered = "infinity".data ∨ lowered = "nan".data then true
  else decimalOk cs

/-- `parse_value` from `src/db.rs`: bind as INTEGER if the text parses as an
`i64`, else as REAL if it parses as an `f64`, else as TEXT.  (The model's
`Real` payload keeps the source text, see `SQLValue`.) -/
def parse_value (s : String) : SQLValue :=
  match rustParseI64 s with
  | some i => .Integer i
  | none => if rustParseF64ok s then .Real s else .Text s

/-- The bound SQL parameter for an optional new value in `update_cell` and
`undo_last_change` (`src/db.rs`): `None` binds SQL NULL, `Some s` binds
`parse_value s`. -/
def bindParam : Option String → SQLValue
  | none => .Null
  | some s => parse_value s

/-! ## Query compiler: the filter predicate

`load_table` and `export_csv` in `src/db.rs` each build the WHERE clause
`LOWER(CAST(c AS TEXT)) LIKE ? OR ...` over all real columns, binding the
pattern `%` ++ lowercased filter ++ `%` once per column, and omit the clause
when the filter is absent or the column list is empty.  The clause text
reduces to the single pattern string, which is what the builders below
return; the SQL evaluation semantics (`LIKE`, `LOWER`, `CAST`, NULL
propagation) is modelled from the spec. -/

/-- SQL `LIKE` pattern matching (modelled from the spec: SQLite's LIKE with
`%` matching any run and `_` matching one character; both sides are already
lower-cased by the generated clause, so characters compare literally).
`%` is interpreted as: some suffix of the text matches the rest. -/
def likeMatch : List Char → List Char → Bool
  | [], t => t.isEmpty
  | p :: ps, t =>
    if p = '%' then (t.tails).any (fun s => likeMatch ps s)
    else
      (match t with
       | [] => false
       | c :: ts => if p = '_' then likeMatch ps ts else (p == c && likeMatch ps ts))

/-- Modelled from the spec: `CAST(v AS TEXT)` at the store boundary.  NULL
stays NULL (`none`); numbers render in decimal; blob bytes are reinterpreted
as characters. -/
def castText : SQLValue → Option String
  | .Null => none
  | .Integer i => some (toString i)
  | .Real r => some r
  | .Text t => some t
  | .Blob b => some (String.mk (b.map Char.ofNat))

/-- The WHERE clause built by `load_table` in `src/db.rs`, reduced to its
LIKE pattern: present exactly when a filter is given and the column list is
non-empty, with pattern `%{lowercased filter}%` repeated for every column. -/
def buildWhereLoad (filter : Option String) (cols_only : List String) : Option String :=
  match filter with
  | none => none
  | some f => if cols_only.isEmpty then none else some ("%" ++ asciiLower f ++ "%")

/-- The WHERE clause built by `export_csv` in `src/db.rs` (the code is
duplicated there verbatim), reduced the same way. -/
def buildWhereExport (filter : Option String) (cols_only : List String) : Option String :=
  match filter with
  | none => none
  | some f => if cols_only.isEmpty then none else some ("%" ++ asciiLower f ++ "%")

/-- Modelled from the spec: evaluating the compiled WHERE clause on one row
(`vals` are the row's real-column values, in column order).  No clause means
every row passes; otherwise the clause is the OR over columns of
`LOWER(CAST(c AS TEXT)) LIKE pattern`, where a NULL column yields SQL NULL
(not true). -/
def rowPasses (w : Option String) (vals : List SQLValue) : Bool :=
  match w with
  | none => true
  | some pat =>
    vals.any (fun v =>
      match castText v with
      | none => false
      | some t => likeMatch pat.data (asciiLower t).data)

/-- A filter with no LIKE metacharacters: every character differs from
`%` and `_`. -/
def noMeta (cs : List Char) : Bool := cs.all (fun c => ¬(c = '%' ∨ c = '_'))

/-! ## Store model

The persistent store is outside the repository (spec §1, §6); the following
state-and-operations model is modelled from the spec's store boundary: a
table is a named column list plus rows addressed by an integer row identity;
a point UPDATE rewrites one cell of an existing row (updating a missing row
succeeds and changes nothing, as in SQLite); preparing a statement fails
when the table or column does not exist; execution failures (spec §7, item 2)
may hit any write and are abstracted by the `execFail` component. -/

/-- Association-list lookup, first match wins (models map access). -/
def alookup {α : Type} (k : String) : List (String × α) → Option α
  | [] => none
  | (k', v) :: rest => if k' = k then some v else alookup k rest

/-- Association-list lookup with integer keys (row identities). -/
def rlookup {α : Type} (k : Int) : List (Int × α) → Option α
  | [] => none
  | (k', v) :: rest => if k' = k then some v else rlookup k rest

/-- Update the value at a key in place, leaving other entries alone. -/
def updAssoc {α : Type} (l : List (String × α)) (k : String) (f : α → α) :
    List (String × α) :=
  l.map (fun p => if p.1 = k then (p.1, f p.2) else p)

/-- Update the value at an integer key in place. -/
def rupdAssoc {α : Type} (l : List (Int × α)) (k : Int) (f : α → α) :
    List (Int × α) :=
  l.map (fun p => if p.1 = k then (p.1, f p.2) else p)

/-- One stored table: declared column names and rows (row identity paired
with the cell values, aligned with `cols`). -/
structure StoreTable where
  cols : List String
  rows : List (Int × List SQLValue)

/-- Modelled from the spec: the store state.  `execFail` abstracts which
point updates fail at execution time (spec §7 failure taxonomy, item 2):
`none` means the write succeeds, `some msg` means it fails with `msg`. -/
structure Store where
  tables : List (String × StoreTable)
  execFail : String → String → Int → SQLValue → Option String

/-- Index of a column name in a table's declared columns. -/
def StoreTable.colIdx (td : StoreTable) (c : String) : Option Nat :=
  td.cols.findIdx? (fun x => x == c)

/-- Look a table up by name. -/
def Store.lookupTable (st : Store) (t : String) : Option StoreTable :=
  alookup t st.tables

/-- Modelled from the spec: preparing `SELECT c FROM t ...` or
`UPDATE t SET c = ? ...` fails exactly when the table or the column does not
exist. -/
def prepareStmt (st : Store) (table col : String) : Except String Unit :=
  match st.lookupTable table with
  | none => .error ("no such table: " ++ table)
  | some td =>
    match td.colIdx col with
    | none => .error ("no such column: " ++ col)
    | some _ => .ok ()

/-- Read one cell (`none` when the table, column, row or cell is absent;
in `update_cell` this models `query_row(..).ok()` swallowing the no-rows
error). -/
def Store.getCell (st : Store) (table col : String) (rid : Int) : Option SQLValue :=
  match st.lookupTable table with
  | none => none
  | some td =>
    match td.colIdx col with
    | none => none
    | some i =>
      match rlookup rid td.rows with
      | none => none
      | some row => row[i]?

/-- Write one cell; a missing table, column or row makes this a no-op
(SQLite's `UPDATE ... WHERE rowid = ?` succeeds with zero rows changed). -/
def Store.setCell (st : Store) (table col : String) (rid : Int) (v : SQLValue) : Store :=
  { st with
    tables := updAssoc st.tables table (fun td =>
      match td.colIdx col with
      | none => td
      | some i => { td with rows := rupdAssoc td.rows rid (fun row => row.set i v) }) }

/-- Modelled from the spec: executing the prepared point UPDATE — it either
fails with the message dictated by `execFail`, or rewrites the cell. -/
def execUpdate (st : Store) (table col : String) (rid : Int) (v : SQLValue) :
    Except String Store :=
  match st.execFail table col rid v with
  | some e => .error e
  | none => .ok (st.setCell table col rid v)

/-! ## Store protocol and worker (`src/db.rs`) -/

/-- `enum DBRequest` from `src/db.rs` (field order as in the source). -/
inductive DBRequest
  | LoadSchema
  | LoadTable (table : String) (page page_size : Nat) (offset_override : Option Nat)
      (filter : Option String) (sort_by : Option String) (sort_dir : Option SortDir)
  | UpdateCell (table : String) (rowid : Int) (column : String) (new_value : Option String)
  | ExportCSV (table : String) (path : String) (filter : Option String)
      (sort_by : Option String) (sort_dir : Option SortDir)
  | UndoLastChange (table : String)
deriving DecidableEq, Repr

/-- `enum DBResponse` from `src/db.rs`. -/
inductive DBResponse
  | Schema (tables : List String)
  | TableData (table : String) (columns : List String) (rows : List (List String))
      (page : Nat) (total_rows : Option Nat)
  | CellUpdated (ok : Bool) (message : Option String)
  | ExportedCSV (ok : Bool) (path : String) (message : Option String)
  | Error (msg : String)
deriving DecidableEq, Repr

/-- `struct Change` from `src/db.rs`: one undo-history entry. -/
structure Change where
  table : String
  rowid : Int
  column : String
  prev_value : Option String
  new_value : Option String
deriving DecidableEq, Repr

/-- The worker's whole mutable state: the store connection, the per-table
undo history (`HashMap<String, Vec<Change>>`; a Rust `Vec` pushes and pops
at its back, modelled here with the stack top at the list head), and the
files written by CSV export (modelled from the spec: the export file sink,
one line per list entry). -/
structure DBState where
  store : Store
  history : List (String × List Change)
  files : List (String × List String)

/-- Push a change onto a table's history stack
(`history.entry(table).or_default().push(entry)`). -/
def historyPush (h : List (String × List Change)) (table : String) (c : Change) :
    List (String × List Change) :=
  match alookup table h with
  | none => h ++ [(table, [c])]
  | some _ => updAssoc h table (fun stack => c :: stack)

/-- `update_cell` from `src/db.rs`: read the previous value (swallowing a
missing row), execute the UPDATE with the shape-dispatched bound value, and
push a history entry only on success.  A prepare failure propagates as the
handler's error (the `?` operator). -/
def update_cell (st : DBState) (table : String) (rowid : Int) (column : String)
    (new_value : Option String) : DBState × Except String DBResponse :=
  match prepareStmt st.store table column with
  | .error e => (st, .error e)
  | .ok _ =>
    let prev_value : Option String :=
      (st.store.getCell table column rowid).bind value_to_opt_string
    let value_param := bindParam new_value
    match execUpdate st.store table column rowid value_param with
    | .error e => (st, .ok (.CellUpdated false (some e)))
    | .ok store' =>
      let entry : Change :=
        { table := table, rowid := rowid, column := column
          prev_value := prev_value, new_value := new_value }
      ({ st with store := store', history := historyPush st.history table entry },
       .ok (.CellUpdated true (some "OK")))

/-- `undo_last_change` from `src/db.rs`: pop the table's top entry (the pop
happens before the reverse write is attempted), then re-apply the previous
value; an execution failure is reported as `CellUpdated ok:=false` with the
popped entry already gone, and a prepare failure propagates as the handler's
error, likewise after the pop.  An absent or empty stack answers
`CellUpdated ok:=false "Nothing to undo"` and changes nothing. -/
def undo_last_change (st : DBState) (table : String) : DBState × Except String DBResponse :=
  match alookup table st.history with
  | some (change :: rest) =>
    let st1 : DBState := { st with history := updAssoc st.history table (fun _ => rest) }
    (match prepareStmt st1.store change.table change.column with
     | .error e => (st1, .error e)
     | .ok _ =>
       match execUpdate st1.store change.table change.column change.rowid
           (bindParam change.prev_value) with
       | .ok store' =>
         ({ st1 with store := store' }, .ok (.CellUpdated true (some "Undo applied")))
       | .error e =>
         (st1, .ok (.CellUpdated false (some ("Undo failed: " ++ e)))))
  | _ => (st, .ok (.CellUpdated false (some "Nothing to undo")))

/-- `load_schema` from `src/db.rs`: the user tables' names, name-ordered,
excluding SQLite's internal `sqlite_`-prefixed tables. -/
def load_schema (st : Store) : List String :=
  ((st.tables.map (fun p => p.1)).filter
      (fun n => ¬String.isPrefixOf "sqlite_" n)).mergeSort (fun a b => a ≤ b)

/-- `struct LoadTableParams` from `src/db.rs`. -/
structure LoadTableParams where
  table : String
  page : Nat
  page_size : Nat
  offset_override : Option Nat
  filter : Option String
  sort_by : Option String
  sort_dir : Option SortDir

/-- Modelled from the spec: a total comparison on store values backing the
generated ORDER BY clause (SQLite orders NULL, then numbers, then text,
then blobs; REAL values, textual in this model, are compared textually as
an approximation — no claim depends on the relative order). -/
def sqlValueLe (a b : SQLValue) : Bool :=
  let rank : SQLValue → Nat
    | .Null => 0
    | .Integer _ => 1
    | .Real _ => 2
    | .Text _ => 3
    | .Blob _ => 4
  match a, b with
  | .Integer i, .Integer j => i ≤ j
  | .Real r, .Real s => r ≤ s
  | .Text t, .Text u => t ≤ u
  | .Blob b, .Blob c => decide (b ≤ c)
  | a, b => rank a ≤ rank b

/-- The ORDER BY clause of `load_table`/`export_csv` in `src/db.rs` applied
to the candidate rows: a sort key must be `__rowid__` or an existing column
name, otherwise the clause is silently omitted; a missing direction defaults
to ascending.  (Row ordering itself is store behaviour, modelled from the
spec via `sqlValueLe`.) -/
def applyOrder (sort_by : Option String) (sort_dir : Option SortDir)
    (cols : List String) (rows : List (Int × List SQLValue)) :
    List (Int × List SQLValue) :=
  match sort_by with
  | none => rows
  | some c =>
    let dirLe : SQLValue → SQLValue → Bool :=
      match sort_dir.getD SortDir.Asc with
      | .Asc => sqlValueLe
      | .Desc => fun a b => sqlValueLe b a
    if c = "__rowid__" then
      rows.mergeSort (fun a b =>
        match sort_dir.getD SortDir.Asc with
        | .Asc => a.1 ≤ b.1
        | .Desc => b.1 ≤ a.1)
    else
      match (StoreTable.mk cols []).colIdx c with
      | none => rows
      | some i => rows.mergeSort (fun a b => dirLe (a.2[i]?.getD .Null) (b.2[i]?.getD .Null))

/-- `load_table` from `src/db.rs`: discover columns (prefixing the synthetic
`__rowid__`), filter with the compiled WHERE clause, order, and take one
page at `offset_override`-or-`page * page_size`; the count query reuses the
identical predicate.  A missing table fails at prepare (the generated SELECT
with an empty projection is a syntax error). -/
def load_table (st : DBState) (p : LoadTableParams) : DBState × Except String DBResponse :=
  match alookup p.table st.store.tables with
  | none => (st, .error ("no such table: " ++ p.table))
  | some td =>
    let columns := "__rowid__" :: td.cols
    let wpat := buildWhereLoad p.filter td.cols
    let matched := td.rows.filter (fun r => rowPasses wpat r.2)
    let sorted := applyOrder p.sort_by p.sort_dir td.cols matched
    let offset := p.offset_override.getD (p.page * p.page_size)
    let pageRows := ((sorted.drop offset).take p.page_size).map
      (fun r => value_to_string (.Integer r.1) :: r.2.map value_to_string)
    let total_rows : Option Nat := some matched.length
    (st, .ok (.TableData p.table columns pageRows p.page total_rows))

/-- `write_csv_row` field quoting from `src/db.rs`: quote when the field
holds a comma, quote, or line break, doubling embedded quotes. -/
def csvField (col : String) : String :=
  let needs := col.data.contains ',' || col.data.contains '"' ||
    col.data.contains '\n' || col.data.contains '\r'
  if needs then
    "\"" ++ String.mk (col.data.flatMap (fun c => if c = '"' then ['"', '"'] else [c])) ++ "\""
  else col

/-- One CSV line from `write_csv_row` in `src/db.rs`. -/
def csvRow (cols : List String) : String :=
  String.intercalate "," (cols.map csvField)

/-- `export_csv` from `src/db.rs`: the same WHERE and ORDER BY construction
as `load_table` but without pagination, streaming an identity-prefixed
header plus all matching rows to the destination file (the file sink is the
`files` component of the model state). -/
def export_csv (st : DBState) (table path : String) (filter : Option String)
    (sort_by : Option String) (sort_dir : Option SortDir) :
    DBState × Except String DBResponse :=
  match alookup table st.store.tables with
  | none => (st, .error ("no such table: " ++ table))
  | some td =>
    let wpat := buildWhereExport filter td.cols
    let matched := td.rows.filter (fun r => rowPasses wpat r.2)
    let sorted := applyOrder sort_by sort_dir td.cols matched
    let header := "__rowid__" :: td.cols
    let lines := csvRow header ::
      sorted.map (fun r => csvRow (value_to_string (.Integer r.1) :: r.2.map value_to_string))
    ({ st with files := (path, lines) :: st.files },
     .ok (.ExportedCSV true path none))

/-- Request dispatch in the worker loop of `start_db_worker`
(`src/db.rs`). -/
def handleRequest (st : DBState) (req : DBRequest) : DBState × Except String DBResponse :=
  match req with
  | .LoadSchema => (st, .ok (.Schema (load_schema st.store)))
  | .LoadTable table page page_size off filter sb sd =>
    load_table st ⟨table, page, page_size, off, filter, sb, sd⟩
  | .UpdateCell table rowid column nv => update_cell st table rowid column nv
  | .ExportCSV table path filter sb sd => export_csv st table path filter sb sd
  | .UndoLastChange table => undo_last_change st table

/-- One turn of the worker loop: a handler's `Ok` is sent as-is, an `Err`
is sent as `DBResponse::Error` with the message; either way the loop
continues with the handler's state. -/
def workerStep (st : DBState) (req : DBRequest) : DBState × DBResponse :=
  ((handleRequest st req).1,
   match (handleRequest st req).2 with
   | .ok resp => resp
   | .error e => .Error e)

/-- The worker loop of `start_db_worker` over a finite request backlog:
strictly in arrival order, one `workerStep` per request. -/
def runWorker (st : DBState) : List DBRequest → DBState × List DBResponse
  | [] => (st, [])
  | req :: rest =>
    ((runWorker (workerStep st req).1 rest).1,
     (workerStep st req).2 :: (runWorker (workerStep st req).1 rest).2)

/-! ## Row window engine (`src/app.rs`)

The `App` state below carries the fields of `struct App` that the row-window
engine touches (schema, paging, buffer/window/selection, filter and sort,
column-width metadata, status).  The request channel `req_tx` becomes the
`sent` list: `req_tx.send(r)` appends `r`.  Fields of the edit session, the
overlays and the channels' receive side play no part in the claims'
functions and are omitted. -/

/-- Rust `str::contains(needle)`: substring containment. -/
def strContains (hay needle : String) : Bool :=
  decide (needle.data <:+: hay.data)

/-- The row-window engine state, from `struct App` in `src/app.rs`. -/
structure App where
  status : String
  tables : List String
  selected_table : Nat
  columns : List String
  rows : List (List String)
  page_size : Nat
  visible_rows_per_page : Nat
  global_row_offset : Nat
  view_start : Nat
  buffer_rows : List (List String)
  buffer_offset : Nat
  last_requested_offset : Nat
  page : Nat
  total_rows : Option Nat
  sel_row : Nat
  sel_col : Nat
  col_width_tiers : List Nat
  col_abs_widths : List Nat
  autosize_col_request : Option Nat
  autosize_all_request : Bool
  filter : Option String
  sort_by : Option String
  sort_dir : Option SortDir
  select_last_row_on_load : Bool
  sent : List DBRequest

/-- `App::new` from `src/app.rs` (the modelled fields). -/
def App.new (page_size : Nat) : App where
  status := "Press q to quit. Enter to open table. e to edit cell. PgUp/PgDn to paginate."
  tables := []
  selected_table := 0
  columns := []
  rows := []
  page_size := page_size
  visible_rows_per_page := page_size
  global_row_offset := 0
  view_start := 0
  buffer_rows := []
  buffer_offset := 0
  last_requested_offset := 0
  page := 0
  total_rows := none
  sel_row := 0
  sel_col := 0
  col_width_tiers := []
  col_abs_widths := []
  autosize_col_request := none
  autosize_all_request := false
  filter := none
  sort_by := none
  sort_dir := none
  select_last_row_on_load := false
  sent := []

/-- `App::current_table_name` from `src/app.rs`. -/
def App.current_table_name (a : App) : Option String :=
  a.tables[a.selected_table]?

/-- `App::load_selected_table_page` from `src/app.rs`: snapshot the current
global offset into `last_requested_offset`, then send a `LoadTable` request
carrying that offset as `offset_override` together with the current filter
and sort spec.  Without a current table nothing happens. -/
def App.load_selected_table_page (a : App) (page : Nat) : App :=
  match a.current_table_name with
  | none => a
  | some table =>
    { a with
      last_requested_offset := a.global_row_offset
      sent := a.sent ++ [DBRequest.LoadTable table page a.page_size
        (some a.global_row_offset) a.filter a.sort_by a.sort_dir]
      status := "Loading table..." }

/-- `App::reload_current_table` from `src/app.rs`. -/
def App.reload_current_table (a : App) : App :=
  a.load_selected_table_page a.page

/-- `App::handle_db_response` from `src/app.rs`.  The `TableData` branch is
the reconciliation step: replace the buffer, set `buffer_offset` from
`last_requested_offset`, clamp the view window and selection, project the
visible slice, and rebuild column-width metadata. -/
def App.handle_db_response (a : App) (resp : DBResponse) : App :=
  match resp with
  | .Schema tables =>
    let a := { a with tables := tables }
    let a :=
      if a.tables.length ≤ a.selected_table then { a with selected_table := 0 } else a
    { a with status := "Loaded " ++ toString a.tables.length ++ " tables" }
  | .TableData table columns rows page total_rows =>
    let a := { a with
      columns := columns, page := page, total_rows := total_rows
      buffer_rows := rows, buffer_offset := a.last_requested_offset }
    let cap := max (min a.visible_rows_per_page a.buffer_rows.length) 1
    let view_start0 := a.global_row_offset - a.buffer_offset
    let max_start := a.buffer_rows.length - cap
    let view_start := if max_start < view_start0 then max_start else view_start0
    let a := { a with
      view_start := view_start
      rows := (a.buffer_rows.drop view_start).take cap }
    let a :=
      if a.select_last_row_on_load then
        { a with sel_row := cap - 1, select_last_row_on_load := false }
      else
        { a with sel_row := min a.sel_row (cap - 1) }
    { a with
      sel_col := min a.sel_col (a.columns.length - 1)
      col_width_tiers := List.replicate a.columns.length 1
      col_abs_widths := List.replicate a.columns.length 0
      autosize_col_request := none
      autosize_all_request := false
      status := "Viewing " ++ table ++ " — page " ++ toString (page + 1) ++ " (" ++
        toString a.page_size ++ " rows/page)" ++
        (match total_rows with
         | some t => ", total ~" ++ toString t
         | none => "") }
  | .CellUpdated ok message =>
    if ok then
      let is_undo :=
        match message with
        | some m => strContains m "Undo"
        | none => false
      let a := { a with
        status := if is_undo then "Undo: applied" else message.getD "Cell updated" }
      a.reload_current_table
    else
      let msg := message.getD ""
      { a with
        status :=
          if strContains msg "Undo" then "Undo failed: " ++ msg
          else "Update failed: " ++ msg }
  | .ExportedCSV ok path message =>
    if ok then { a with status := "Exported CSV to " ++ path }
    else { a with status := "Export failed: " ++ message.getD "" }
  | .Error msg => { a with status := "Error: " ++ msg }

/-- `App::next_page` from `src/app.rs`: jump the smooth-scroll base a full
page forward, then request the next page. -/
def App.next_page (a : App) : App :=
  let a := { a with global_row_offset := (a.page + 1) * a.page_size }
  a.load_selected_table_page (a.page + 1)

/-- `App::prev_page` from `src/app.rs`. -/
def App.prev_page (a : App) : App :=
  if 0 < a.page then
    let a := { a with global_row_offset := (a.page - 1) * a.page_size }
    a.load_selected_table_page (a.page - 1)
  else a

/-- `App::set_filter_string` from `src/app.rs` (the in-source comment reads
"Reset to first page when filter changes"; the code passes page 0 to
`load_selected_table_page`, which still snapshots and sends the unchanged
`global_row_offset` as `offset_override`). -/
def App.set_filter_string (a : App) (filter : Option String) : App :=
  let a := { a with filter := filter }
  a.load_selected_table_page 0

/-- `App::clear_filter` from `src/app.rs`. -/
def App.clear_filter (a : App) : App :=
  a.set_filter_string none

/-- `App::sort_cycle_on_selection` from `src/app.rs`: set the sort key to
the selected column and cycle None → Asc → Desc → None, then reload the
current page. -/
def App.sort_cycle_on_selection (a : App) : App :=
  if a.columns.isEmpty then a
  else
    let col_name := (a.columns[a.sel_col]?).getD ""
    let a := { a with
      sort_by := some col_name
      sort_dir :=
        match a.sort_dir with
        | none => some SortDir.Asc
        | some SortDir.Asc => some SortDir.Desc
        | some SortDir.Desc => none }
    a.reload_current_table

/-- `App::sort_toggle_dir` from `src/app.rs`. -/
def App.sort_toggle_dir (a : App) : App :=
  let a := { a with
    sort_dir :=
      match a.sort_dir with
      | some SortDir.Asc => some SortDir.Desc
      | _ => some SortDir.Asc }
  a.reload_current_table

/-- `App::move_cell_up` from `src/app.rs`: move within the window, else
shift the window inside the buffer, else fetch the previous page with the
"select last row on load" flag. -/
def App.move_cell_up (a : App) : App :=
  if 0 < a.sel_row then { a with sel_row := a.sel_row - 1 }
  else if a.buffer_offset < a.global_row_offset then
    let a := { a with
      global_row_offset := a.global_row_offset - 1
      view_start := a.view_start - 1 }
    let cap := max (min a.visible_rows_per_page a.buffer_rows.length) 1
    let a :=
      if ¬a.rows.isEmpty ∧ cap = a.rows.length then
        { a with rows := ((a.buffer_rows[a.view_start]?).getD []) :: a.rows.dropLast }
      else
        { a with rows := (a.buffer_rows.drop a.view_start).take cap }
    { a with sel_row := 0 }
  else if 0 < a.global_row_offset then
    let a := { a with
      global_row_offset := a.global_row_offset - 1
      select_last_row_on_load := true
      status := "Loading previous page…" }
    a.load_selected_table_page (a.global_row_offset / a.page_size)
  else a

/-- `App::move_cell_down` from `src/app.rs`: move within the window, else
shift the window inside the buffer (pinning the cursor to the bottom row),
else bump the global offset and fetch the page containing it. -/
def App.move_cell_down (a : App) : App :=
  let last_visible := min a.visible_rows_per_page a.rows.length - 1
  if a.sel_row < last_visible then { a with sel_row := min (a.sel_row + 1) last_visible }
  else
    let buffer_end := a.buffer_offset + a.buffer_rows.length
    if a.global_row_offset + a.sel_row + 1 < buffer_end then
      let a := { a with
        global_row_offset := a.global_row_offset + 1
        view_start := a.view_start + 1 }
      let cap := max (min a.visible_rows_per_page a.buffer_rows.length) 1
      let a :=
        if ¬a.rows.isEmpty ∧ cap = a.rows.length then
          { a with rows := a.rows.tail ++ [(a.buffer_rows[a.view_start + cap - 1]?).getD []] }
        else
          { a with rows := (a.buffer_rows.drop a.view_start).take cap }
      { a with sel_row := last_visible }
    else
      let a := { a with
        global_row_offset := a.global_row_offset + 1
        status := "Loading next page…" }
      a.load_selected_table_page (a.global_row_offset / a.page_size)

/-! ## Concrete states used by the witnesses and counterexamples -/

/-- The scenario state behind the C1 theorems: a fresh engine that knows
one table `t` and uses page size 50. -/
def appC1 : App := { App.new 50 with tables := ["t"] }

/-- The state behind the C3 theorem: viewing table `t` at global offset 480
(page 9 of 50), with the cursor on real column `a` and no filter or sort. -/
def appC3 : App := { App.new 50 with
  tables := ["t"]
  columns := ["__rowid__", "a"]
  sel_col := 1
  global_row_offset := 480
  page := 9 }

/-- The scenario state behind the C4 theorems (spec §8): table `t`, page
size 50, viewport capacity 20; the first 50 rows (identities 1..50 of 500)
are buffered at offset 0 and the window shows rows 1..20 with the cursor at
the top. -/
def appC4 : App := { App.new 50 with
  tables := ["t"]
  columns := ["__rowid__", "val"]
  visible_rows_per_page := 20
  buffer_rows := (List.range 50).map (fun i => [toString (i + 1), "v"])
  rows := ((List.range 50).map (fun i => [toString (i + 1), "v"])).take 20
  total_rows := some 500
  page := 0 }

/-- The worker state behind the C6 theorems: one table, no history. -/
def dbC6 : DBState :=
  { store := { tables := [("t", ⟨["c"], [(1, [SQLValue.Text "x"])]⟩)]
               execFail := fun _ _ _ _ => none }
    history := []
    files := [] }

/-- The worker state behind the C7 witness: an empty store, so that a
`LoadTable` for a missing table makes its handler fail. -/
def dbC7 : DBState :=
  { store := { tables := [], execFail := fun _ _ _ _ => none }
    history := []
    files := [] }

/-- The worker state behind the C5 witness: one cell holding TEXT `abc`
(which re-parses to itself) and a store whose writes succeed. -/
def dbC5 : DBState :=
  { store := { tables := [("t", ⟨["c"], [(1, [SQLValue.Text "abc"])]⟩)]
               execFail := fun _ _ _ _ => none }
    history := []
    files := [] }

/-- The worker state behind the C5 counterexample: the cell holds a BLOB
(one byte, 0xab). -/
def dbC5b : DBState :=
  { store := { tables := [("t", ⟨["c"], [(1, [SQLValue.Blob [171]])]⟩)]
               execFail := fun _ _ _ _ => none }
    history := []
    files := [] }

/-- The worker state behind the C9 witness: the cell holds TEXT `w`. -/
def dbC9 : DBState :=
  { store := { tables := [("t", ⟨["c"], [(1, [SQLValue.Text "w"])]⟩)]
               execFail := fun _ _ _ _ => none }
    history := []
    files := [] }

/-- The worker state behind the C10 witness: one recorded change on table
`t` and a store whose next write fails. -/
def dbC10 : DBState :=
  { store := { tables := [("t", ⟨["c"], [(1, [SQLValue.Text "new"])]⟩)]
               execFail := fun _ _ _ _ => some "constraint failed" }
    history := [("t", [{ table := "t", rowid := 1, column := "c"
                         prev_value := some "old", new_value := some "new" }])]
    files := [] }

/-! ## Helper lemmas about the store model -/

theorem alookup_updAssoc {α : Type} (l : List (String × α)) (k : String) (f : α → α) :
    alookup k (updAssoc l k f) = (alookup k l).map f := by
  induction l with
  | nil => rfl
  | cons p rest ih =>
    obtain ⟨k', v⟩ := p
    show alookup k ((if k' = k then (k', f v) else (k', v)) :: updAssoc rest k f) = _
    by_cases h : k' = k
    · subst h
      rw [if_pos rfl, alookup, if_pos rfl, alookup, if_pos rfl]
      rfl
    · rw [if_neg h, alookup, if_neg h, alookup, if_neg h, ih]

theorem rlookup_rupdAssoc {α : Type} (l : List (Int × α)) (k : Int) (f : α → α) :
    rlookup k (rupdAssoc l k f) = (rlookup k l).map f := by
  induction l with
  | nil => rfl
  | cons p rest ih =>
    obtain ⟨k', v⟩ := p
    show rlookup k ((if k' = k then (k', f v) else (k', v)) :: rupdAssoc rest k f) = _
    by_cases h : k' = k
    · subst h
      rw [if_pos rfl, rlookup, if_pos rfl, rlookup, if_pos rfl]
      rfl
    · rw [if_neg h, rlookup, if_neg h, rlookup, if_neg h, ih]

theorem alookup_append_self {α : Type} (l : List (String × α)) (k : String) (v : α)
    (h : alookup k l = none) : alookup k (l ++ [(k, v)]) = some v := by
  induction l with
  | nil =>
    show alookup k [(k, v)] = some v
    rw [alookup, if_pos rfl]
  | cons p rest ih =>
    obtain ⟨k', w⟩ := p
    by_cases hp : k' = k
    · rw [alookup, if_pos hp] at h; exact absurd h (by simp)
    · rw [alookup, if_neg hp] at h
      show alookup k ((k', w) :: (rest ++ [(k, v)])) = some v
      rw [alookup, if_neg hp, ih h]

theorem alookup_historyPush (h : List (String × List Change)) (t : String) (c : Change) :
    alookup t (historyPush h t c) = some (c :: (alookup t h).getD []) := by
  unfold historyPush
  cases hh : alookup t h with
  | none => simpa using alookup_append_self h t [c] hh
  | some stack => simp [alookup_updAssoc, hh]

theorem getCell_setCell (st : Store) (t c : String) (rid : Int) (v₀ v : SQLValue)
    (h : st.getCell t c rid = some v₀) :
    (st.setCell t c rid v).getCell t c rid = some v := by
  unfold Store.getCell Store.lookupTable at h
  unfold Store.getCell Store.setCell Store.lookupTable
  rw [alookup_updAssoc]
  cases htd : alookup t st.tables with
  | none => rw [htd] at h; exact absurd h (by simp)
  | some td =>
    rw [htd] at h
    dsimp only [Option.map] at h ⊢
    cases hci : td.colIdx c with
    | none => try rw [hci] at h
              exact absurd h (by simp)
    | some i =>
      dsimp only at h ⊢
      try rw [hci] at h
      have hcols : (StoreTable.mk td.cols
            (rupdAssoc td.rows rid (fun row => row.set i v))).colIdx c
          = td.colIdx c := rfl
      rw [hcols, hci]
      dsimp only
      rw [rlookup_rupdAssoc]
      cases hrow : rlookup rid td.rows with
      | none => try rw [hrow] at h
                exact absurd h (by simp)
      | some row =>
        try rw [hrow] at h
        dsimp only [Option.map] at h ⊢
        have hlt : i < row.length := (List.getElem?_eq_some.mp h).1
        simp [List.getElem?_set, hlt]

theorem execFail_setCell (st : Store) (t c : String) (rid : Int) (v : SQLValue) :
    (st.setCell t c rid v).execFail = st.execFail := rfl

theorem prepare_ok_of_getCell (st : Store) (t c : String) (rid : Int) (v : SQLValue)
    (h : st.getCell t c rid = some v) : prepareStmt st t c = .ok () := by
  unfold Store.getCell at h
  unfold prepareStmt
  cases htd : st.lookupTable t with
  | none => rw [htd] at h; exact absurd h (by simp)
  | some td =>
    rw [htd] at h
    dsimp only at h ⊢
    cases hci : td.colIdx c with
    | none => rw [hci] at h; exact absurd h (by simp)
    | some i => rfl

/-! ## Helper lemmas about the LIKE pattern semantics -/

theorem likeMatch_pct (ps t : List Char) :
    likeMatch ('%' :: ps) t = true ↔ ∃ s, s <:+ t ∧ likeMatch ps s = true := by
  simp [likeMatch, List.any_eq_true, List.mem_tails]

theorem likeMatch_pct_only (s : List Char) : likeMatch ['%'] s = true := by
  rw [likeMatch_pct]
  exact ⟨[], ⟨s, by simp⟩, rfl⟩

theorem likeMatch_lit (l : List Char) (hl : noMeta l = true) (s : List Char) :
    likeMatch (l ++ ['%']) s = true ↔ l <+: s := by
  induction l generalizing s with
  | nil =>
    simpa using likeMatch_pct_only s
  | cons a l ih =>
    have ha : ¬(a = '%' ∨ a = '_') := by
      have := (List.all_eq_true.mp hl) a (by simp)
      simpa using this
    have ha1 : a ≠ '%' := fun h => ha (Or.inl h)
    have ha2 : a ≠ '_' := fun h => ha (Or.inr h)
    have hl' : noMeta l = true := by
      simp only [noMeta, List.all_cons, Bool.and_eq_true] at hl
      exact hl.2
    cases s with
    | nil =>
      show likeMatch (a :: (l ++ ['%'])) [] = true ↔ _
      rw [likeMatch, if_neg ha1]
      simp
    | cons c ts =>
      show likeMatch (a :: (l ++ ['%'])) (c :: ts) = true ↔ _
      rw [likeMatch, if_neg ha1]
      rw [if_neg ha2]
      rw [Bool.and_eq_true, beq_iff_eq]
      rw [ih hl']
      exact (List.cons_prefix_cons).symm

theorem likeMatch_contains (l t : List Char) (hl : noMeta l = true) :
    likeMatch ('%' :: (l ++ ['%'])) t = true ↔ l <:+: t := by
  rw [likeMatch_pct]
  constructor
  · rintro ⟨s, hs, hm⟩
    exact List.infix_iff_prefix_suffix.mpr ⟨s, (likeMatch_lit l hl s).mp hm, hs⟩
  · intro h
    obtain ⟨s, hp, hs⟩ := List.infix_iff_prefix_suffix.mp h
    exact ⟨s, hs, (likeMatch_lit l hl s).mpr hp⟩

theorem lowerChar_meta (c : Char) :
    (lowerChar c = '%' → c = '%') ∧ (lowerChar c = '_' → c = '_') := by
  unfold lowerChar
  split <;> simp_all

theorem noMeta_lower (cs : List Char) (h : noMeta cs = true) :
    noMeta (cs.map lowerChar) = true := by
  simp only [noMeta, List.all_eq_true, decide_eq_true_eq] at h ⊢
  intro x hx
  obtain ⟨c, hc, rfl⟩ := List.mem_map.mp hx
  have h1 := h c hc
  intro hcontra
  rcases hcontra with h2 | h2
  · exact h1 (Or.inl ((lowerChar_meta c).1 h2))
  · exact h1 (Or.inr ((lowerChar_meta c).2 h2))

theorem bool_eq_decide (x : Bool) (p : Prop) [Decidable p] (h : x = true ↔ p) :
    x = decide p := by
  by_cases hp : p
  · simp [hp, h.mpr hp]
  · cases hx : x
    · simp [hp]
    · exact absurd (h.mp hx) hp

/-! ## Theorems -/

/-- C2.  After reconciling any `TableData` response, the rendered window
stays inside the buffer: `view_start + visible_capacity ≤ buffer_rows.len()`
for every prior state and every response — viewport larger than the buffer
and empty buffers included.  `visible_capacity` is, per the spec's data
model (§3), the number of rows actually rendered, i.e. the length of the
projected visible slice `rows` (for an empty buffer that is 0, even though
the code's internal `cap` variable is clamped to 1). -/
theorem C2_reconcile_window_in_buffer (a : App) (table : String)
    (columns : List String) (rows : List (List String)) (page : Nat)
    (total_rows : Option Nat) :
    (a.handle_db_response (.TableData table columns rows page total_rows)).view_start +
      (a.handle_db_response (.TableData table columns rows page total_rows)).rows.length ≤
      (a.handle_db_response (.TableData table columns rows page total_rows)).buffer_rows.length := by
  simp only [App.handle_db_response]
  split <;>
    simp only [List.length_take, List.length_drop] <;>
    split <;> omega

/-- C1, amended.  Reconciling a `TableData` response always sets
`buffer_offset` to `last_requested_offset` — the single offset snapshotted
when the *most recent* fetch was sent (`load_selected_table_page` records
the global offset at send time).  This is not the offset current at arrival
time, but neither is it a per-request snapshot: with two fetches in flight,
the earlier response also receives the latest send's snapshot
(see the counterexample). -/
theorem C1_reconcile_uses_last_send_snapshot (a : App) (table : String)
    (columns : List String) (rows : List (List String)) (page : Nat)
    (total_rows : Option Nat) :
    ((a.handle_db_response (.TableData table columns rows page total_rows)).buffer_offset =
      a.last_requested_offset) ∧
    (∀ p : Nat, a.current_table_name.isSome →
      (a.load_selected_table_page p).last_requested_offset = a.global_row_offset) := by
  constructor
  · simp only [App.handle_db_response]
    split <;> rfl
  · intro p hp
    unfold App.load_selected_table_page
    cases ht : a.current_table_name with
    | none => rw [ht] at hp; exact absurd hp (by simp)
    | some table => rfl

/-- C1, witness for the amended theorem at a concrete state. -/
theorem C1_witness :
    ((appC1.handle_db_response (.TableData "t" ["__rowid__"] [] 0 none)).buffer_offset =
      appC1.last_requested_offset) ∧
    ((appC1.load_selected_table_page 3).last_requested_offset =
      appC1.global_row_offset) :=
  ⟨(C1_reconcile_uses_last_send_snapshot appC1 "t" ["__rowid__"] [] 0 none).1,
   (C1_reconcile_uses_last_send_snapshot appC1 "t" ["__rowid__"] [] 0 none).2 3 (by decide)⟩

/-- C1, counterexample to the claim as stated.  Fetch r1 is sent while the
global offset is 0 (its send-time snapshot, `s1.last_requested_offset`, is
0); then `next_page` moves the offset to 50 and sends r2.  When r1's
response (page 0) is applied, `buffer_offset` becomes 50 — the snapshot of
r2's send — not the 0 snapshotted at r1's send, contradicting the claim for
the in-flight pair r1, r2. -/
theorem C1_counterexample :
    ((appC1.load_selected_table_page 0).last_requested_offset = 0) ∧
    (((appC1.load_selected_table_page 0).next_page.handle_db_response
        (.TableData "t" ["__rowid__", "a"] [["1", "x"]] 0 (some 500))).buffer_offset = 50) ∧
    (50 : Nat) ≠ 0 := by
  refine ⟨by decide, ?_, by decide⟩
  decide

/-- C3.  The code contradicts the claim (and its own in-source comment
"Reset to first page when filter changes"): `set_filter_string` sends
`LoadTable` with `page = 0` but `offset_override = Some(480)` — the
unchanged `global_row_offset`, which takes precedence over the page in
`load_table` — so nothing is reset to the first page; the sort helpers keep
even the current page number. -/
theorem C3_filter_sort_keep_offset :
    ((appC3.set_filter_string (some "x")).sent =
      [DBRequest.LoadTable "t" 0 50 (some 480) (some "x") none none]) ∧
    ((appC3.set_filter_string (some "x")).global_row_offset = 480) ∧
    (appC3.clear_filter.sent =
      [DBRequest.LoadTable "t" 0 50 (some 480) none none none]) ∧
    (appC3.sort_cycle_on_selection.sent =
      [DBRequest.LoadTable "t" 9 50 (some 480) none (some "a") (some SortDir.Asc)]) ∧
    (appC3.sort_cycle_on_selection.global_row_offset = 480) ∧
    (appC3.sort_toggle_dir.sent =
      [DBRequest.LoadTable "t" 9 50 (some 480) none none (some SortDir.Asc)]) := by
  refine ⟨by decide, by decide, by decide, ?_, by decide, by decide⟩
  decide

/-- C4, counterexample to the claim as stated: in the spec's own scenario
the 20th "move down" does NOT trigger a fetch — after 20 moves no request
at all has been sent, because rows 21..50 are still inside the 50-row
buffer and the window shifts locally. -/
theorem C4_counterexample :
    (App.move_cell_down^[20] appC4).sent = [] := by
  decide

/-- C4, amended.  19 "move down" inputs keep the selection at window index
19 with no fetch; the 20th "move down" shifts the window locally within the
buffer — still with no fetch, since the buffer holds 50 rows — advancing
the global offset to 1 and landing the selection (still pinned at window
index 19) on the row with identity 21. -/
theorem C4_move_down_scenario :
    ((App.move_cell_down^[19] appC4).sel_row = 19) ∧
    ((App.move_cell_down^[19] appC4).sent = []) ∧
    ((App.move_cell_down^[19] appC4).global_row_offset = 0) ∧
    ((App.move_cell_down^[20] appC4).sel_row = 19) ∧
    ((App.move_cell_down^[20] appC4).sent = []) ∧
    ((App.move_cell_down^[20] appC4).global_row_offset = 1) ∧
    ((App.move_cell_down^[20] appC4).rows[19]? = some ["21", "v"]) := by
  refine ⟨by decide, by decide, by decide, by decide, by decide, by decide, ?_⟩
  decide

/-- C6, amended.  Undo on a table whose history stack is absent or empty
answers with a `CellUpdated` response — not an `Error` response — carrying
the message "Nothing to undo", and leaves the whole worker state (store,
history, files) unmodified; however the response's success flag is `false`,
i.e. the outcome is reported as a failed cell update (the UI renders it as
"Update failed: Nothing to undo"). -/
theorem C6_empty_undo_reports_nothing (st : DBState) (t : String)
    (h : (alookup t st.history).getD [] = []) :
    undo_last_change st t = (st, .ok (.CellUpdated false (some "Nothing to undo"))) := by
  unfold undo_last_change
  cases hh : alookup t st.history with
  | none => rfl
  | some stack =>
    cases stack with
    | nil => rfl
    | cons chg rest =>
      rw [hh] at h
      exact absurd h (by simp)

/-- C6, witness for the amended theorem at a concrete state. -/
theorem C6_witness :
    undo_last_change dbC6 "t" =
      (dbC6, .ok (.CellUpdated false (some "Nothing to undo"))) :=
  C6_empty_undo_reports_nothing dbC6 "t" (by decide)

/-- C6, counterexample to the claim as stated: the response for an
empty-stack undo carries the success flag `false` — by the spec's own
protocol description (§4.2, "cell-updated (success flag, message)") the
outcome is reported as a failure, contradicting "(not a failure)". -/
theorem C6_counterexample :
    (undo_last_change dbC6 "t").2 = .ok (.CellUpdated false (some "Nothing to undo")) ∧
    (false : Bool) ≠ true := by
  exact ⟨rfl, by decide⟩

/-- C7.  Over any finite request backlog the worker emits exactly one
response per request, in order; a request whose handler fails is answered
with an `Error` response carrying the handler's message; and processing a
request never ends the loop — the responses to `req :: rest` are the
response to `req` followed by the responses to `rest` from the successor
state, whether or not `req`'s handler failed. -/
theorem C7_one_response_per_request (st : DBState) (reqs : List DBRequest) :
    ((runWorker st reqs).2.length = reqs.length) ∧
    (∀ req rest, (runWorker st (req :: rest)).2 =
      (workerStep st req).2 :: (runWorker (workerStep st req).1 rest).2) ∧
    (∀ req e, (handleRequest st req).2 = .error e → (workerStep st req).2 = .Error e) := by
  refine ⟨?_, ?_, ?_⟩
  · induction reqs generalizing st with
    | nil => rfl
    | cons req rest ih =>
      simp only [runWorker, List.length_cons]
      rw [ih]
  · intro req rest
    rfl
  · intro req e he
    unfold workerStep
    rw [he]

/-- C7, witness: a two-request backlog whose second handler fails still
yields two responses, and the failing request is answered with `Error`. -/
theorem C7_witness :
    ((runWorker dbC7 [DBRequest.LoadSchema,
        DBRequest.LoadTable "missing" 0 10 none none none none]).2.length = 2) ∧
    ((workerStep dbC7 (DBRequest.LoadTable "missing" 0 10 none none none none)).2 =
      .Error "no such table: missing") :=
  ⟨(C7_one_response_per_request dbC7 [DBRequest.LoadSchema,
      DBRequest.LoadTable "missing" 0 10 none none none none]).1,
   (C7_one_response_per_request dbC7 []).2.2
     (DBRequest.LoadTable "missing" 0 10 none none none none)
     "no such table: missing" rfl⟩

/-- C10.  `undo_last_change` pops the history entry before attempting the
reverse write: when the reverse UPDATE's execution fails, the worker
answers `CellUpdated ok:=false "Undo failed: …"`, the store is untouched,
and the popped entry is *not* pushed back — the table's stack has shrunk to
`rest`, so the failed change can never be retried. -/
theorem C10_failed_undo_still_pops (st : DBState) (t : String) (change : Change)
    (rest : List Change) (m : String)
    (h1 : alookup t st.history = some (change :: rest))
    (h2 : prepareStmt st.store change.table change.column = .ok ())
    (h3 : st.store.execFail change.table change.column change.rowid
      (bindParam change.prev_value) = some m) :
    (undo_last_change st t =
      ({ st with history := updAssoc st.history t (fun _ => rest) },
       .ok (.CellUpdated false (some ("Undo failed: " ++ m))))) ∧
    (alookup t (undo_last_change st t).1.history = some rest) := by
  have hmain : undo_last_change st t =
      ({ st with history := updAssoc st.history t (fun _ => rest) },
       .ok (.CellUpdated false (some ("Undo failed: " ++ m)))) := by
    unfold undo_last_change
    rw [h1]
    dsimp only
    rw [h2]
    dsimp only
    unfold execUpdate
    rw [h3]
  refine ⟨hmain, ?_⟩
  rw [hmain]
  dsimp only
  rw [alookup_updAssoc, h1]
  rfl

/-- C5, amended.  Update followed by undo on an otherwise-idle table
restores the cell exactly whenever the previous stored value survives the
worker's stringify/re-parse round trip — `bindParam (value_to_opt_string v)
= v`, which holds for NULL, for every in-range integer, and for text that
does not itself parse as a number.  This includes both null transitions:
the new value may be NULL (non-null → null and back) or non-null over a
NULL prior.  (Without the round-trip condition the claim fails: a BLOB
prior is re-parsed from its hex rendering into TEXT, see the
counterexample.) -/
theorem C5_update_undo_roundtrip (st : DBState) (t c : String) (rid : Int)
    (v₀ : SQLValue) (new_value : Option String)
    (h0 : st.store.getCell t c rid = some v₀)
    (hrt : bindParam (value_to_opt_string v₀) = v₀)
    (hf : ∀ tb col r v, st.store.execFail tb col r v = none) :
    ((undo_last_change (update_cell st t rid c new_value).1 t).1.store.getCell t c rid
       = some v₀) ∧
    ((update_cell st t rid c new_value).2 = .ok (.CellUpdated true (some "OK"))) ∧
    ((undo_last_change (update_cell st t rid c new_value).1 t).2 =
       .ok (.CellUpdated true (some "Undo applied"))) := by
  have hprep : prepareStmt st.store t c = .ok () :=
    prepare_ok_of_getCell _ _ _ rid v₀ h0
  have hupd : update_cell st t rid c new_value =
      ({ store := st.store.setCell t c rid (bindParam new_value)
         history := historyPush st.history t
           { table := t, rowid := rid, column := c
             prev_value := value_to_opt_string v₀, new_value := new_value }
         files := st.files },
       .ok (.CellUpdated true (some "OK"))) := by
    unfold update_cell
    rw [hprep]
    dsimp only
    unfold execUpdate
    rw [hf]
    dsimp only
    rw [h0]
    rfl
  have hget1 : (st.store.setCell t c rid (bindParam new_value)).getCell t c rid
      = some (bindParam new_value) :=
    getCell_setCell _ _ _ _ _ _ h0
  have hprep1 : prepareStmt (st.store.setCell t c rid (bindParam new_value)) t c = .ok () :=
    prepare_ok_of_getCell _ _ _ rid (bindParam new_value) hget1
  have hfail1 : (st.store.setCell t c rid (bindParam new_value)).execFail t c rid
      (bindParam (value_to_opt_string v₀)) = none :=
    hf t c rid (bindParam (value_to_opt_string v₀))
  refine ⟨?_, ?_, ?_⟩
  · rw [hupd]
    unfold undo_last_change
    dsimp only
    rw [alookup_historyPush]
    dsimp only
    rw [hprep1]
    dsimp only
    unfold execUpdate
    rw [hfail1]
    dsimp only
    rw [hrt]
    exact getCell_setCell _ _ _ _ _ _ hget1
  · rw [hupd]
  · rw [hupd]
    unfold undo_last_change
    dsimp only
    rw [alookup_historyPush]
    dsimp only
    rw [hprep1]
    dsimp only
    unfold execUpdate
    rw [hfail1]

/-- C5, witness: setting the TEXT cell to NULL and undoing restores the
text exactly (the non-null → null → non-null transition of the claim). -/
theorem C5_witness :
    ((undo_last_change (update_cell dbC5 "t" 1 "c" none).1 "t").1.store.getCell "t" "c" 1
       = some (.Text "abc")) ∧
    ((update_cell dbC5 "t" 1 "c" none).2 = .ok (.CellUpdated true (some "OK"))) ∧
    ((undo_last_change (update_cell dbC5 "t" 1 "c" none).1 "t").2 =
       .ok (.CellUpdated true (some "Undo applied"))) :=
  C5_update_undo_roundtrip dbC5 "t" "c" 1 (.Text "abc") none rfl rfl
    (fun _ _ _ _ => rfl)

/-- C5, counterexample to the claim as stated: with a BLOB prior value the
update/undo pair does NOT restore the previous stored value.  The history
captures the blob as its hex rendering "0xab" (`value_to_opt_string`), and
undo re-parses that string, storing TEXT "0xab" instead of the original
BLOB. -/
theorem C5_counterexample :
    (dbC5b.store.getCell "t" "c" 1 = some (.Blob [171])) ∧
    ((undo_last_change (update_cell dbC5b "t" 1 "c" (some "zzz")).1 "t").1.store.getCell
        "t" "c" 1 = some (.Text "0xab")) ∧
    SQLValue.Text "0xab" ≠ SQLValue.Blob [171] := by
  refine ⟨rfl, ?_, by decide⟩
  rfl

/-- C9.  The worker's value binding is dispatched purely on the shape of
the submitted string: INTEGER when it parses as an `i64`, else REAL when it
parses as an `f64`, else TEXT — and a successful `UpdateCell` stores
exactly that bound value whatever value (of whatever storage class) the
cell held before, and `UndoLastChange` replays a recorded non-null previous
value through the same dispatch.  (The declared column type plays no part:
the modelled store boundary — spec §6 — executes the bound value verbatim.) -/
theorem C9_binding_by_string_shape (s : String) :
    (∀ i : Int, rustParseI64 s = some i → parse_value s = .Integer i) ∧
    (rustParseI64 s = none → rustParseF64ok s = true → parse_value s = .Real s) ∧
    (rustParseI64 s = none → rustParseF64ok s = false → parse_value s = .Text s) ∧
    (∀ (st : DBState) (t c : String) (rid : Int) (v₀ : SQLValue),
      st.store.getCell t c rid = some v₀ →
      st.store.execFail t c rid (parse_value s) = none →
      (update_cell st t rid c (some s)).1.store.getCell t c rid = some (parse_value s)) ∧
    (∀ (st : DBState) (t : String) (change : Change) (rest : List Change) (v₀ : SQLValue),
      alookup t st.history = some (change :: rest) →
      change.prev_value = some s →
      st.store.getCell change.table change.column change.rowid = some v₀ →
      st.store.execFail change.table change.column change.rowid (parse_value s) = none →
      (undo_last_change st t).1.store.getCell change.table change.column change.rowid =
        some (parse_value s)) := by
  refine ⟨?_, ?_, ?_, ?_, ?_⟩
  · intro i hi
    unfold parse_value
    rw [hi]
  · intro hn hf
    unfold parse_value
    rw [hn]
    dsimp only
    rw [hf]
    rfl
  · intro hn hf
    unfold parse_value
    rw [hn]
    dsimp only
    rw [hf]
    rfl
  · intro st t c rid v₀ h0 hfl
    have hprep : prepareStmt st.store t c = .ok () :=
      prepare_ok_of_getCell _ _ _ rid v₀ h0
    unfold update_cell
    rw [hprep]
    dsimp only
    unfold execUpdate
    rw [show st.store.execFail t c rid (bindParam (some s)) = none from hfl]
    dsimp only
    exact getCell_setCell _ _ _ _ _ _ h0
  · intro st t change rest v₀ hstack hprev h0 hfl
    have hprep : prepareStmt st.store change.table change.column = .ok () :=
      prepare_ok_of_getCell _ _ _ change.rowid v₀ h0
    unfold undo_last_change
    rw [hstack]
    dsimp only
    rw [hprep]
    dsimp only
    unfold execUpdate
    rw [show st.store.execFail change.table change.column change.rowid
          (bindParam change.prev_value) = none from hprev ▸ hfl]
    dsimp only
    rw [hprev]
    exact getCell_setCell _ _ _ _ _ _ h0

/-- C9, witness: the string "7" parses as an integer, and updating the TEXT
cell with it stores `Integer 7` — the stored class follows the string's
shape, not the prior storage class. -/
theorem C9_witness :
    (parse_value "7" = .Integer 7) ∧
    ((update_cell dbC9 "t" 1 "c" (some "7")).1.store.getCell "t" "c" 1 =
      some (parse_value "7")) :=
  ⟨(C9_binding_by_string_shape "7").1 7 rfl,
   (C9_binding_by_string_shape "7").2.2.2.1 dbC9 "t" "c" 1 (.Text "w") rfl rfl⟩

/-- C10, witness at a concrete failing store. -/
theorem C10_witness :
    ((undo_last_change dbC10 "t").2 =
      .ok (.CellUpdated false (some "Undo failed: constraint failed"))) ∧
    (alookup "t" (undo_last_change dbC10 "t").1.history = some []) := by
  have h := C10_failed_undo_still_pops dbC10 "t"
    { table := "t", rowid := 1, column := "c"
      prev_value := some "old", new_value := some "new" } [] "constraint failed"
    rfl rfl rfl
  refine ⟨?_, h.2⟩
  rw [h.1]
  rfl

/-- C8, amended.  For a non-empty column list and a filter string free of
LIKE metacharacters (`%`, `_`), the compiled predicate matches a row if and
only if some column's non-NULL text representation contains the lowercased
filter as a substring of its own lowercased text (case-insensitive
containment); the data query (`load_table`) and the export query
(`export_csv`) build the identical clause; and an *absent* filter compiles
to no predicate.  An *empty-string* filter, however, does compile to a
predicate (pattern `%%`) — see the counterexample — and a filter containing
`%` or `_` is interpreted as a LIKE pattern, not as a literal substring. -/
theorem C8_filter_semantics (f : String) (cols : List String) (vals : List SQLValue)
    (hc : cols ≠ []) (hm : noMeta f.data = true) :
    (rowPasses (buildWhereLoad (some f) cols) vals =
      vals.any (fun v =>
        match castText v with
        | none => false
        | some t => decide ((asciiLower f).data <:+: (asciiLower t).data))) ∧
    (∀ (fo : Option String) (cs : List String), buildWhereLoad fo cs = buildWhereExport fo cs) ∧
    (buildWhereLoad none cols = none) := by
  refine ⟨?_, ?_, ?_⟩
  · have hempty : cols.isEmpty = false := by
      cases cols with
      | nil => exact absurd rfl hc
      | cons x xs => rfl
    have hl : noMeta (asciiLower f).data = true := noMeta_lower f.data hm
    have hpat : ("%" ++ asciiLower f ++ "%").data = '%' :: ((asciiLower f).data ++ ['%']) := by
      simp [String.data_append]
    rw [show buildWhereLoad (some f) cols = some ("%" ++ asciiLower f ++ "%") from by
      simp [buildWhereLoad, hempty]]
    unfold rowPasses
    dsimp only
    have hfun : (fun v => match castText v with
        | none => false
        | some t => likeMatch ("%" ++ asciiLower f ++ "%").data (asciiLower t).data) =
        (fun v => match castText v with
        | none => false
        | some t => decide ((asciiLower f).data <:+: (asciiLower t).data)) := by
      funext v
      cases castText v with
      | none => rfl
      | some t =>
        dsimp only
        rw [hpat]
        exact bool_eq_decide _ _ (likeMatch_contains _ _ hl)
    rw [hfun]
  · intro fo cs
    cases fo <;> rfl
  · rfl

/-- C8, witness: filter `aB` over one column; the row whose only non-NULL
column text is `xAbY` matches, agreeing with case-insensitive substring
containment. -/
theorem C8_witness :
    (rowPasses (buildWhereLoad (some "aB") ["c"]) [SQLValue.Null, SQLValue.Text "xAbY"] =
      [SQLValue.Null, SQLValue.Text "xAbY"].any (fun v =>
        match castText v with
        | none => false
        | some t => decide ((asciiLower "aB").data <:+: (asciiLower t).data))) ∧
    (rowPasses (buildWhereLoad (some "aB") ["c"]) [SQLValue.Null, SQLValue.Text "xAbY"] =
      true) :=
  ⟨(C8_filter_semantics "aB" ["c"] [SQLValue.Null, SQLValue.Text "xAbY"]
      (by decide) (by decide)).1,
   by decide⟩

/-- C8, counterexample to the claim as stated: `filter = Some("")` does NOT
compile to "no predicate at all" — the code only checks `Option::is_some`,
so it builds the clause with pattern `%%`, which differs observably from
the absent-filter case: a row whose every column is NULL fails the `%%`
predicate (SQL `NULL LIKE x` is not true) but passes when no predicate is
built. -/
theorem C8_counterexample :
    (buildWhereLoad (some "") ["c"] = some "%%") ∧
    (rowPasses (buildWhereLoad (some "") ["c"]) [SQLValue.Null] = false) ∧
    (rowPasses (buildWhereLoad none ["c"]) [SQLValue.Null] = true) ∧
    (buildWhereLoad (some "") ["c"] ≠ buildWhereLoad none ["c"]) := by
  refine ⟨by decide, by decide, by decide, by decide⟩

end SQLiteTUI
